import Mathlib

/-!
Verification of the Parkhurst community booking system against its
natural-language specification.

The JavaScript sources (src/utils.js, src/config.js, src/booking.js,
index.js) are shallowly embedded below.  Browser pages are modelled as
pure data: a page has a URL, a title, and a selector-indexed family of
DOM elements; element visibility and text content are fields.  Machine
time values are modelled as minutes (Nat/Int), calendar dates as day
numbers (Int), and the JavaScript runtime's string primitives
(trim, includes, toUpperCase, encodeURIComponent) are embedded as
executable Lean functions on String / List Char.
-/

namespace Parkhurst

/-- JS `s.includes(pat)`: substring containment, as a Bool. -/
def strIncludes (s pat : String) : Bool :=
  decide (pat.data <:+: s.data)

/-- JS `s.trim()`: strip leading and trailing whitespace, embedded over
the character list so that it evaluates by kernel reduction. -/
def jsTrim (s : String) : String :=
  ⟨((s.data.dropWhile Char.isWhitespace).reverse.dropWhile Char.isWhitespace).reverse⟩

/-! ## DOM model used by the outcome verifier (src/booking.js) -/

/-- A DOM element as observed by the verifier: whether it intersects the
viewport and its `textContent`. -/
structure DomElement where
  visible : Bool
  text : String
deriving DecidableEq

/-- A browser page as observed by `verifyBookingSuccess`: current URL,
document title, and the element list returned by `page.$$(selector)`. -/
structure Page where
  url : String
  title : String
  query : String → List DomElement

/-- The literal success URL from src/booking.js line 239. -/
def targetSuccessUrl : String := "https://parkhurst.skedda.com/booking"

/-- The transient success banner text from src/booking.js line 251. -/
def successMessageText : String :=
  "Too easy...your booking is in! A confirmation email will hit your inbox shortly."

/-- The fixed error-selector list from src/booking.js lines 252-259. -/
def errorSelectors : List String :=
  [".alert-danger", ".error-message", ".booking-error",
   "[class*=\"error\"]", ".alert", "[role=\"alert\"]"]

/-- The per-element test inside the verifier's scan loop
(src/booking.js lines 266-279): a visible element whose trimmed text is
non-empty and does not contain the transient success message yields that
trimmed text as the failure reason. -/
def elementErrorText (el : DomElement) : Option String :=
  if el.visible then
    let t := jsTrim el.text
    if t ≠ "" ∧ ¬ strIncludes t successMessageText then some t else none
  else none

/-- The verifier's scan over `errorSelectors` (src/booking.js lines
264-285): first selector-order element accepted by `elementErrorText`. -/
def findFirstError (p : Page) : Option String :=
  errorSelectors.findSome? fun sel => (p.query sel).findSome? elementErrorText

/-- `logErrorToFile` (src/booking.js lines 219-231): appends one
timestamped line to booking_errors.log; if the write fails the failure
is caught and reported as a console warning.  Returns (file lines
appended, console warnings); `writeOk` says whether the append succeeds
and `werr` is the message of the write error when it does not. -/
def logErrorToFile (ts msg : String) (writeOk : Bool) (werr : String) :
    List String × List String :=
  if writeOk then ([ts ++ " - " ++ msg ++ "\n"], [])
  else ([], ["Failed to write to log file: " ++ werr])

/-- The observable outcome of one `verifyBookingSuccess` run: the value
returned or error thrown, the lines appended to the failure log, and the
console warnings emitted. -/
structure VerifyOutput where
  result : Except String Bool
  fileLog : List String
  warnings : List String

/-- The generic failure message built at src/booking.js line 293. -/
def genericFailureMessage (p : Page) : String :=
  "Booking status unclear. Not on success URL. Current URL: " ++ p.url ++
    ", Page Title: " ++ p.title

/-- `verifyBookingSuccess` (src/booking.js lines 233-297).  Success iff
the current URL is exactly `targetSuccessUrl`; otherwise scan the error
selectors and throw either the first detected error text or the generic
failure message, appending a log line first in both failure cases. -/
def verifyBookingSuccess (p : Page) (ts : String) (writeOk : Bool) (werr : String) :
    VerifyOutput :=
  if p.url = targetSuccessUrl then ⟨Except.ok true, [], []⟩
  else
    match findFirstError p with
    | some t =>
      let msg := "Booking failed: " ++ t
      let lw := logErrorToFile ts msg writeOk werr
      ⟨Except.error msg, lw.1, lw.2⟩
    | none =>
      let msg := genericFailureMessage p
      let lw := logErrorToFile ts msg writeOk werr
      ⟨Except.error msg, lw.1, lw.2⟩

/-! ## Theorems for claim C1 -/

/-- C1: `verifyBookingSuccess` classifies the attempt as success if and
only if the final URL is exactly the literal base booking URL; every
other URL (including the base URL with leftover query parameters) makes
the function raise an error instead of returning success. -/
theorem C1_success_iff_exact_url (p : Page) (ts werr : String) (writeOk : Bool) :
    ((verifyBookingSuccess p ts writeOk werr).result = Except.ok true ↔
      p.url = targetSuccessUrl) ∧
    ((verifyBookingSuccess p ts writeOk werr).result = Except.ok true ∨
      ∃ msg, (verifyBookingSuccess p ts writeOk werr).result = Except.error msg) := by
  unfold verifyBookingSuccess
  by_cases h : p.url = targetSuccessUrl
  · simp [h]
  · cases hf : findFirstError p <;> simp [h, hf]

/-! ## Theorems for claim C2 -/

/-- Follows the claim wording for C2 (not the code): the text of the
first visible element with non-empty trimmed text, in selector order,
with no further filtering. -/
def specFirstVisibleNonEmptyText (p : Page) : Option String :=
  errorSelectors.findSome? fun sel =>
    (p.query sel).findSome? fun el =>
      if el.visible ∧ jsTrim el.text ≠ "" then some (jsTrim el.text) else none

/-- A page (not on the success URL) whose first visible non-empty
element carries the transient success-banner text, followed by a real
error element. -/
def c2CexPage : Page where
  url := "https://parkhurst.skedda.com/booking?x=1"
  title := "Schedule"
  query := fun sel =>
    if sel = ".alert-danger" then
      [⟨true, successMessageText⟩, ⟨true, "Real error text"⟩]
    else []

/-- C2 counterexample: on `c2CexPage` the first visible element with
non-empty text is the success banner, yet the verifier reports the text
of the second element, so the reported reason is not the text of the
first visible non-empty element. -/
theorem C2_counterexample :
    specFirstVisibleNonEmptyText c2CexPage = some successMessageText ∧
    c2CexPage.url ≠ targetSuccessUrl ∧
    (verifyBookingSuccess c2CexPage "TS" true "w").result =
      Except.error ("Booking failed: " ++ "Real error text") ∧
    "Booking failed: " ++ "Real error text" ≠ "Booking failed: " ++ successMessageText := by
  refine ⟨rfl, by decide, rfl, by decide⟩

/-- C2 (amended): when the final URL is not the success URL and the
scan finds a first visible element with non-empty trimmed text that does
not contain the transient success message, the verifier raises an error
carrying that text and (when the log write succeeds) appends exactly one
timestamped line to the failure log. -/
theorem C2_first_error_reported (p : Page) (ts werr t : String)
    (hurl : p.url ≠ targetSuccessUrl) (hfind : findFirstError p = some t) :
    (verifyBookingSuccess p ts true werr).result =
      Except.error ("Booking failed: " ++ t) ∧
    (verifyBookingSuccess p ts true werr).fileLog =
      [ts ++ " - " ++ ("Booking failed: " ++ t) ++ "\n"] := by
  unfold verifyBookingSuccess
  rw [if_neg hurl, hfind]
  exact ⟨rfl, rfl⟩

/-- A page exposing a visible `.alert-danger` element with the text
`Space is already booked`, as in the C2 scenario. -/
def c2WitnessPage : Page where
  url := "https://parkhurst.skedda.com/booking?nbstart=x"
  title := "Booking"
  query := fun sel =>
    if sel = ".alert-danger" then [⟨true, "Space is already booked"⟩] else []

/-- Witness for `C2_first_error_reported` at the claim's own scenario. -/
theorem C2_first_error_reported_witness :
    (verifyBookingSuccess c2WitnessPage "2025-06-15T00:00:00.000Z" true "boom").result =
      Except.error ("Booking failed: " ++ "Space is already booked") ∧
    (verifyBookingSuccess c2WitnessPage "2025-06-15T00:00:00.000Z" true "boom").fileLog =
      ["2025-06-15T00:00:00.000Z" ++ " - " ++
        ("Booking failed: " ++ "Space is already booked") ++ "\n"] :=
  C2_first_error_reported c2WitnessPage "2025-06-15T00:00:00.000Z" "boom"
    "Space is already booked" (by decide) rfl

/-! ## Theorems for claim C9 -/

/-- C9: on every failure path of the verifier a timestamped line is
appended to the failure log carrying the same message as the raised
error, and a failing log write is non-fatal: the same verification error
is raised, nothing is written, and the write failure is reported as a
warning. -/
theorem C9_log_then_raise_nonfatal (p : Page) (ts werr : String)
    (h : p.url ≠ targetSuccessUrl) :
    ∃ msg,
      (verifyBookingSuccess p ts true werr).result = Except.error msg ∧
      (verifyBookingSuccess p ts false werr).result = Except.error msg ∧
      (verifyBookingSuccess p ts true werr).fileLog = [ts ++ " - " ++ msg ++ "\n"] ∧
      (verifyBookingSuccess p ts false werr).fileLog = [] ∧
      (verifyBookingSuccess p ts false werr).warnings =
        ["Failed to write to log file: " ++ werr] := by
  unfold verifyBookingSuccess
  simp only [if_neg h]
  cases hf : findFirstError p with
  | some t => exact ⟨"Booking failed: " ++ t, rfl, rfl, rfl, rfl, rfl⟩
  | none => exact ⟨genericFailureMessage p, rfl, rfl, rfl, rfl, rfl⟩

/-- A page that is not on the success URL and shows no error elements. -/
def c9WitnessPage : Page where
  url := "https://parkhurst.skedda.com/booking?nbspaces=1244466"
  title := "Parkhurst"
  query := fun _ => []

/-- Witness for `C9_log_then_raise_nonfatal` on a concrete page. -/
theorem C9_log_then_raise_nonfatal_witness :
    ∃ msg,
      (verifyBookingSuccess c9WitnessPage "T0" true "disk full").result = Except.error msg ∧
      (verifyBookingSuccess c9WitnessPage "T0" false "disk full").result = Except.error msg ∧
      (verifyBookingSuccess c9WitnessPage "T0" true "disk full").fileLog =
        ["T0" ++ " - " ++ msg ++ "\n"] ∧
      (verifyBookingSuccess c9WitnessPage "T0" false "disk full").fileLog = [] ∧
      (verifyBookingSuccess c9WitnessPage "T0" false "disk full").warnings =
        ["Failed to write to log file: " ++ "disk full"] :=
  C9_log_then_raise_nonfatal c9WitnessPage "T0" "disk full" (by decide)

/-! ## Theorems for claim C10 -/

theorem findSome?_eq_none_of_all_none {α β : Type} (l : List α) (f : α → Option β)
    (h : ∀ a ∈ l, f a = none) : l.findSome? f = none := by
  induction l with
  | nil => rfl
  | cons a as ih =>
    rw [List.findSome?]
    rw [h a (List.mem_cons_self a as)]
    exact ih fun b hb => h b (List.mem_cons_of_mem a hb)

/-- C10: elements whose text contains the literal success message are
never reported as the failure reason; on a page (off the success URL)
where every visible element with non-empty trimmed text contains that
message, the verifier raises the generic failure carrying the URL and
page title, not the banner text. -/
theorem C10_success_text_never_reported (p : Page) (ts werr : String) (writeOk : Bool)
    (hurl : p.url ≠ targetSuccessUrl)
    (hall : ∀ sel ∈ errorSelectors, ∀ el ∈ p.query sel, el.visible = true →
      jsTrim el.text ≠ "" → strIncludes (jsTrim el.text) successMessageText = true) :
    (verifyBookingSuccess p ts writeOk werr).result =
      Except.error (genericFailureMessage p) := by
  have hnone : findFirstError p = none := by
    refine findSome?_eq_none_of_all_none _ _ fun sel hsel => ?_
    refine findSome?_eq_none_of_all_none _ _ fun el hel => ?_
    unfold elementErrorText
    by_cases hv : el.visible
    · by_cases ht : jsTrim el.text = ""
      · simp [hv, ht]
      · have hinc := hall sel hsel el hel hv ht
        simp [hv, ht, hinc]
    · simp [hv]
  unfold verifyBookingSuccess
  rw [if_neg hurl, hnone]

/-- A page whose only visible alert carries exactly the transient
success-banner text. -/
def c10WitnessPage : Page where
  url := "https://parkhurst.skedda.com/booking?nbstart=2025-06-15T12%3A00%3A00"
  title := "Parkhurst Community"
  query := fun sel => if sel = ".alert" then [⟨true, successMessageText⟩] else []

/-- Witness for `C10_success_text_never_reported` on a concrete page. -/
theorem C10_success_text_never_reported_witness :
    (verifyBookingSuccess c10WitnessPage "T1" true "w").result =
      Except.error (genericFailureMessage c10WitnessPage) :=
  C10_success_text_never_reported c10WitnessPage "T1" "w" true (by decide) (by decide)

/-! ## Submitter model (src/booking.js lines 105-156) -/

/-- A button element as observed by `submitBooking`: viewport
intersection, `disabled`, `offsetParent !== null`, and text content. -/
structure Button where
  inViewport : Bool
  disabled : Bool
  hasOffsetParent : Bool
  text : String
deriving DecidableEq

/-- The page as observed by `submitBooking`: the element lists returned
by `page.$$(selector)` and the document-order list of all `button`
elements used by the text-based fallback. -/
structure SubmitPage where
  queryButtons : String → List Button
  allButtons : List Button

/-- The ordered structural selector list (src/booking.js lines 108-114). -/
def buttonSelectors : List String :=
  [".row.pt-5 .col-12 button.btn.btn-success", "button.btn.btn-success",
   "button[type=\"submit\"]", ".btn-success", ".confirm-booking"]

/-- The keyword priority list for the text fallback (src/booking.js line 116). -/
def textBasedSelectors : List String := ["Confirm", "Book", "Submit"]

/-- Structural phase (src/booking.js lines 120-133): first selector in
order whose match set contains a within-viewport, not-disabled element;
that first qualifying element wins. -/
def structuralPhase (p : SubmitPage) : Option Button :=
  buttonSelectors.findSome? fun sel =>
    (p.queryButtons sel).find? fun b => b.inViewport && !b.disabled

/-- Text phase (src/booking.js lines 136-152): for each keyword in
priority order, the first button whose trimmed lower-cased text contains
the lower-cased keyword and which is enabled and visible
(`offsetParent !== null`). -/
def textPhase (p : SubmitPage) : Option Button :=
  textBasedSelectors.findSome? fun t =>
    p.allButtons.find? fun b =>
      strIncludes (jsTrim b.text).toLower t.toLower && !b.disabled && b.hasOffsetParent

/-- `submitBooking`'s confirm-button resolution (src/booking.js lines
118-156): structural phase first, text phase only if it yields nothing,
and the `Confirm booking button not found` error when both fail. -/
def submitBooking (p : SubmitPage) : Except String Button :=
  let confirmButton :=
    match structuralPhase p with
    | some b => some b
    | none => textPhase p
  match confirmButton with
  | some b => Except.ok b
  | none => Except.error "Confirm booking button not found or not clickable"

/-! ## Theorems for claim C3 -/

/-- C3: `submitBooking` selects the structural-phase candidate when one
exists, falls back to the text phase only when the structural phase
yields nothing, and raises the confirm-button-not-found error exactly
when neither phase yields a candidate. -/
theorem C3_two_phase_selection (p : SubmitPage) :
    ((∃ e, submitBooking p = Except.error e) ↔
      structuralPhase p = none ∧ textPhase p = none) ∧
    (∀ b, submitBooking p = Except.ok b ↔
      (structuralPhase p = some b ∨
        (structuralPhase p = none ∧ textPhase p = some b))) := by
  unfold submitBooking
  cases hs : structuralPhase p with
  | some b0 => simp [hs]
  | none => cases ht : textPhase p <;> simp [hs, ht]

/-! ## Title formatter (src/utils.js lines 6-11) -/

/-- Two-digit rendering of a minute count, as in moment's `mm`. -/
def pad2 (n : Nat) : String := if n < 10 then "0" ++ toString n else toString n

/-- moment's `h:mmA` format of a time `t` minutes from a fixed midnight:
moment normalizes the (possibly negative or ≥ 1440) instant into a date
plus time-of-day and the format omits the date, so only `t` modulo 1440
is rendered, in 12-hour clock with AM/PM suffix. -/
def momentFormat_h_mmA (t : Int) : String :=
  let tod := (t % 1440).toNat
  let h24 := tod / 60
  let m := tod % 60
  toString (if h24 % 12 = 0 then 12 else h24 % 12) ++ ":" ++ pad2 m ++
    (if h24 < 12 then "AM" else "PM")

/-- `formatBookingTitle` (src/utils.js lines 6-11).  The two
`moment(time, 'HH:mm')` parses are modelled by already-parsed
(hour, minute) pairs; the buffer is subtracted from the start and added
to the end before formatting. -/
def formatBookingTitle (startTime endTime : Nat × Nat) (bufferMinutes : Nat) : String :=
  momentFormat_h_mmA ((startTime.1 * 60 + startTime.2 : Int) - bufferMinutes) ++ " - " ++
    momentFormat_h_mmA ((endTime.1 * 60 + endTime.2 : Int) + bufferMinutes)

/-! ## Theorems for claim C4 -/

/-- Follows the spec wording for C4: 12-hour clock rendering with AM/PM
suffix of a minutes-of-day value. -/
def specTwelveHour (m : Nat) : String :=
  let h := m / 60
  let mm := m % 60
  toString (if h % 12 = 0 then 12 else h % 12) ++ ":" ++
    (if mm < 10 then "0" ++ toString mm else toString mm) ++
    (if h ≥ 12 then "PM" else "AM")

/-- Follows the spec wording for C4: `{start-buffer} - {end+buffer}`
with buffer arithmetic wrapping across midnight modulo 1440
minutes-of-day (no date carried). -/
def specBookingTitle (sh sm eh em b : Nat) : String :=
  specTwelveHour (((sh * 60 + sm : Int) - b) % 1440).toNat ++ " - " ++
    specTwelveHour ((eh * 60 + em + b) % 1440)

theorem momentFormat_eq_specTwelveHour (t : Int) :
    momentFormat_h_mmA t = specTwelveHour (t % 1440).toNat := by
  unfold momentFormat_h_mmA specTwelveHour pad2
  by_cases h : (t % 1440).toNat / 60 < 12
  · simp [h, Nat.not_le.mpr h]
  · simp [h, Nat.not_lt.mp h]

/-- C4: for every valid HH:MM start and end time and every buffer,
`formatBookingTitle` returns `{start-buffer} - {end+buffer}` in 12-hour
clock with AM/PM suffix, with buffer arithmetic wrapping across midnight
modulo 1440 minutes-of-day; in particular start 12:00, end 13:00,
buffer 15 yields `11:45AM - 1:15PM`. -/
theorem C4_title_formatting (sh sm eh em b : Nat)
    (_h1 : sh < 24) (_h2 : sm < 60) (_h3 : eh < 24) (_h4 : em < 60) :
    formatBookingTitle (sh, sm) (eh, em) b = specBookingTitle sh sm eh em b ∧
    formatBookingTitle (12, 0) (13, 0) 15 = "11:45AM - 1:15PM" := by
  constructor
  · unfold formatBookingTitle specBookingTitle
    rw [momentFormat_eq_specTwelveHour, momentFormat_eq_specTwelveHour]
    congr 2
  · rfl

/-- Witness for `C4_title_formatting` at the claim's own example. -/
theorem C4_title_formatting_witness :
    formatBookingTitle (12, 0) (13, 0) 15 = specBookingTitle 12 0 13 0 15 ∧
    formatBookingTitle (12, 0) (13, 0) 15 = "11:45AM - 1:15PM" :=
  ⟨(C4_title_formatting 12 0 13 0 15 (by decide) (by decide) (by decide) (by decide)).1,
   (C4_title_formatting 12 0 13 0 15 (by decide) (by decide) (by decide) (by decide)).2⟩

/-! ## URL builder (src/utils.js lines 16-28) -/

/-- The characters JS `encodeURIComponent` leaves unescaped:
`A-Z a-z 0-9 - _ . ! ~ * ' ( )` (the apostrophe is tested by its code 39). -/
def isUnreservedURIChar (c : Char) : Bool :=
  c.isAlpha || c.isDigit || c == '-' || c == '_' || c == '.' || c == '!' ||
    c == '~' || c == '*' || c.toNat == 39 || c == '(' || c == ')'

/-- The UTF-8 bytes of a character, for percent-encoding. -/
def utf8Bytes (c : Char) : List Nat :=
  let n := c.toNat
  if n < 128 then [n]
  else if n < 2048 then [192 + n / 64, 128 + n % 64]
  else if n < 65536 then [224 + n / 4096, 128 + (n / 64) % 64, 128 + n % 64]
  else [240 + n / 262144, 128 + (n / 4096) % 64, 128 + (n / 64) % 64, 128 + n % 64]

/-- Upper-case hexadecimal digit, as JS percent-encoding produces. -/
def hexDigitChar (n : Nat) : Char :=
  if n < 10 then Char.ofNat (48 + n) else Char.ofNat (55 + n)

/-- Percent-encoding of one character: unreserved characters pass
through, all others become `%XX` per UTF-8 byte. -/
def encodeChar (c : Char) : List Char :=
  if isUnreservedURIChar c then [c]
  else (utf8Bytes c).flatMap fun b => ['%', hexDigitChar (b / 16), hexDigitChar (b % 16)]

/-- JS `encodeURIComponent`, embedded over the character list. -/
def encodeURIComponent (s : String) : String :=
  ⟨s.data.flatMap encodeChar⟩

/-- Numeric value of a hexadecimal digit character. -/
def hexCharVal (c : Char) : Nat :=
  if c.isDigit then c.toNat - 48
  else if 65 ≤ c.toNat ∧ c.toNat ≤ 70 then c.toNat - 55
  else if 97 ≤ c.toNat ∧ c.toNat ≤ 102 then c.toNat - 87
  else 0

/-- Percent-decoding at the character-list level: each `%XX` becomes the
byte `XX` read as a character; other characters pass through.  This
models JS `decodeURIComponent` on ASCII-only encodings, which covers
every URL this program builds (dates, times and space ids are ASCII). -/
def percentDecodeList : List Char → List Char
  | [] => []
  | c :: rest =>
    if c = '%' then
      match rest with
      | h1 :: h2 :: rest2 =>
        Char.ofNat (16 * hexCharVal h1 + hexCharVal h2) :: percentDecodeList rest2
      | [] => [c]
      | [h1] => [c, h1]
    else c :: percentDecodeList rest

/-- JS `decodeURIComponent` restricted to ASCII percent-encodings. -/
def decodeURIComponentAscii (s : String) : String :=
  ⟨percentDecodeList s.data⟩

/-- `timeToISO` (src/utils.js lines 16-18): `{date}T{time}:00`. -/
def timeToISO (date time : String) : String :=
  date ++ "T" ++ time ++ ":00"

/-- `generateBookingUrl` (src/utils.js lines 23-28):
`{baseUrl}?nbend={enc(endISO)}&nbspaces={spaceId}&nbstart={enc(startISO)}`. -/
def generateBookingUrl (baseUrl spaceId date startTime endTime : String) : String :=
  baseUrl ++ "?nbend=" ++ encodeURIComponent (timeToISO date endTime) ++
    "&nbspaces=" ++ spaceId ++ "&nbstart=" ++ encodeURIComponent (timeToISO date startTime)

/-! ## Theorems for claim C5 -/

/-- The characters that can occur in the date/time strings this program
encodes: decimal digits, `-`, `:` and the literal `T` separator. -/
def isDateTimeChar (c : Char) : Bool :=
  c.isDigit || c == '-' || c == ':' || c == 'T'

theorem isDateTimeChar_of (c : Char)
    (h : c.isDigit = true ∨ c = '-' ∨ c = ':' ∨ c = 'T') :
    isDateTimeChar c = true := by
  rcases h with h | h | h | h
  · simp [isDateTimeChar, h]
  · subst h; decide
  · subst h; decide
  · subst h; decide

theorem percentDecode_cons_ne (c : Char) (rest : List Char) (h : c ≠ '%') :
    percentDecodeList (c :: rest) = c :: percentDecodeList rest := by
  rw [percentDecodeList.eq_def]
  simp only []
  rw [if_neg h]

theorem percentDecode_encodeChar (c : Char) (h : isDateTimeChar c = true)
    (rest : List Char) :
    percentDecodeList (encodeChar c ++ rest) = c :: percentDecodeList rest := by
  have hne : c ≠ '%' := by
    intro hc
    subst hc
    exact absurd h (by decide)
  by_cases hcolon : c = ':'
  · subst hcolon
    rfl
  · have hunres : isUnreservedURIChar c = true := by
      by_cases hdg : c.isDigit = true
      · simp [isUnreservedURIChar, hdg]
      · have hch : c = '-' ∨ c = 'T' := by
          unfold isDateTimeChar at h
          simp only [Bool.or_eq_true, beq_iff_eq] at h
          rcases h with ((h1 | h1) | h1) | h1
          · exact absurd h1 hdg
          · exact Or.inl h1
          · exact absurd h1 hcolon
          · exact Or.inr h1
        rcases hch with h1 | h1 <;> subst h1 <;> decide
    unfold encodeChar
    rw [if_pos hunres]
    exact percentDecode_cons_ne c rest hne

theorem percentDecode_encodeList (l : List Char)
    (h : ∀ c ∈ l, isDateTimeChar c = true) :
    percentDecodeList (l.flatMap encodeChar) = l := by
  induction l with
  | nil => rfl
  | cons c cs ih =>
    rw [List.flatMap_cons]
    rw [percentDecode_encodeChar c (h c (List.mem_cons_self c cs))]
    rw [ih fun b hb => h b (List.mem_cons_of_mem c hb)]

/-- Round trip at the String level for date/time-shaped inputs. -/
theorem decode_encode_roundtrip (s : String)
    (h : ∀ c ∈ s.data, isDateTimeChar c = true) :
    decodeURIComponentAscii (encodeURIComponent s) = s := by
  cases s with
  | mk l =>
    show String.mk (percentDecodeList (l.flatMap encodeChar)) = String.mk l
    rw [percentDecode_encodeList l h]

/-- C5: the nbstart/nbend parameters of the generated URL decode back to
the exact `{date}T{time}:00` input strings, nbspaces is the space id
verbatim, and on the claim's concrete inputs the URL equals the expected
literal. -/
theorem C5_booking_url (baseUrl spaceId date startTime endTime : String)
    (hd : ∀ c ∈ date.data, c.isDigit = true ∨ c = '-')
    (hs : ∀ c ∈ startTime.data, c.isDigit = true ∨ c = ':')
    (he : ∀ c ∈ endTime.data, c.isDigit = true ∨ c = ':') :
    decodeURIComponentAscii (encodeURIComponent (timeToISO date startTime)) =
      timeToISO date startTime ∧
    decodeURIComponentAscii (encodeURIComponent (timeToISO date endTime)) =
      timeToISO date endTime ∧
    generateBookingUrl baseUrl spaceId date startTime endTime =
      baseUrl ++ "?nbend=" ++ encodeURIComponent (timeToISO date endTime) ++
        "&nbspaces=" ++ spaceId ++ "&nbstart=" ++ encodeURIComponent (timeToISO date startTime) ∧
    generateBookingUrl "https://parkhurst.skedda.com/booking" "1244466"
        "2025-06-15" "12:00" "13:00" =
      "https://parkhurst.skedda.com/booking?nbend=2025-06-15T13%3A00%3A00&nbspaces=1244466&nbstart=2025-06-15T12%3A00%3A00" := by
  have hgood : ∀ (t : String), (∀ c ∈ t.data, c.isDigit = true ∨ c = ':') →
      ∀ c ∈ (timeToISO date t).data, isDateTimeChar c = true := by
    intro t ht c hc
    unfold timeToISO at hc
    rw [String.data_append, String.data_append, String.data_append] at hc
    rcases List.mem_append.mp hc with hc1 | hc1
    · rcases List.mem_append.mp hc1 with hc2 | hc2
      · rcases List.mem_append.mp hc2 with hc3 | hc3
        · refine isDateTimeChar_of c ?_
          rcases hd c hc3 with h1 | h1
          · exact Or.inl h1
          · exact Or.inr (Or.inl h1)
        · have hT : c = 'T' := List.mem_singleton.mp hc3
          subst hT; decide
      · refine isDateTimeChar_of c ?_
        rcases ht c hc2 with h1 | h1
        · exact Or.inl h1
        · exact Or.inr (Or.inr (Or.inl h1))
    · have h3 : c ∈ [':', '0', '0'] := hc1
      rcases List.mem_cons.mp h3 with h1 | h3b
      · subst h1; decide
      · rcases List.mem_cons.mp h3b with h1 | h3c
        · subst h1; decide
        · have h1 : c = '0' := List.mem_singleton.mp h3c
          subst h1; decide
  refine ⟨decode_encode_roundtrip _ (hgood startTime hs),
          decode_encode_roundtrip _ (hgood endTime he), rfl, rfl⟩

/-- Witness for `C5_booking_url` at the claim's concrete inputs. -/
theorem C5_booking_url_witness :
    decodeURIComponentAscii (encodeURIComponent (timeToISO "2025-06-15" "12:00")) =
      timeToISO "2025-06-15" "12:00" ∧
    generateBookingUrl "https://parkhurst.skedda.com/booking" "1244466"
        "2025-06-15" "12:00" "13:00" =
      "https://parkhurst.skedda.com/booking?nbend=2025-06-15T13%3A00%3A00&nbspaces=1244466&nbstart=2025-06-15T12%3A00%3A00" :=
  ⟨(C5_booking_url "https://parkhurst.skedda.com/booking" "1244466" "2025-06-15"
      "12:00" "13:00" (by decide) (by decide) (by decide)).1,
   (C5_booking_url "https://parkhurst.skedda.com/booking" "1244466" "2025-06-15"
      "12:00" "13:00" (by decide) (by decide) (by decide)).2.2.2⟩

/-! ## Booking-date resolution and executeBooking (index.js lines 173-282)

Calendar dates are modelled as day numbers (Int); JS `Date` arithmetic
via `setDate(getDate() + n)` is exactly day-number addition, and `<` on
midnight-normalized dates is day-number `<`.  The commander option
`--book-in-advance-days [days]` is `absent` when not passed, `flag` when
passed with no value, and `withValue n?` when passed with a value string
(`n? = none` models a string whose parseInt is NaN; negative values are
kept as negative Ints). -/

/-- State of the `--book-in-advance-days` CLI option. -/
inductive AdvanceOpt
  | absent
  | flag
  | withValue (n : Option Int)
deriving DecidableEq

/-- The hard-coded default of 15 advance days (index.js line 182). -/
def hardcodedDefaultAdvanceDays : Nat := 15

/-- The side effects `automator.book` can perform; the date-resolution
logic itself performs none of them. -/
inductive Effect
  | browserLaunch
  | navigate
  | failureLogWrite
deriving DecidableEq

/-- The date calculation of `executeBooking` (index.js lines 184-222):
mutual-exclusion check, then the advance-days / explicit-date / default
branches.  `dateOpt` is the already-parsed `--date` value as a day
number; `configDays` is `config.defaults.bookInAdvanceDays` when it is a
number. -/
def calcBookingDate (dateOpt : Option Int) (advOpt : AdvanceOpt)
    (configDays : Option Nat) (today : Int) : Except String Int :=
  if dateOpt.isSome ∧ advOpt ≠ AdvanceOpt.absent then
    Except.error "--date and --book-in-advance-days are mutually exclusive"
  else
    match advOpt with
    | AdvanceOpt.withValue n? =>
      match n? with
      | none => Except.error "--book-in-advance-days must be a non-negative integer"
      | some n =>
        if n < 0 then Except.error "--book-in-advance-days must be a non-negative integer"
        else Except.ok (today + n)
    | AdvanceOpt.flag =>
      Except.ok (today + (configDays.getD hardcodedDefaultAdvanceDays : Nat))
    | AdvanceOpt.absent =>
      match dateOpt with
      | some d => Except.ok d
      | none => Except.ok (today + (configDays.getD hardcodedDefaultAdvanceDays : Nat))

/-- The past-date error of index.js line 225. -/
def pastDateError : String := "Booking date is in the past. Use --force-date to override."

/-- The past-date guard (index.js lines 224-227): without `--force-date`
a calculated date strictly before today exits with an error. -/
def checkPastDate (c today : Int) (forceDate : Bool) : Except String Int :=
  if forceDate = false ∧ c < today then Except.error pastDateError else Except.ok c

/-- Date resolution as performed by `executeBooking` before any browser
work: calculation followed by the past-date guard. -/
def resolveBookingDate (dateOpt : Option Int) (advOpt : AdvanceOpt)
    (configDays : Option Nat) (forceDate : Bool) (today : Int) : Except String Int :=
  match calcBookingDate dateOpt advOpt configDays today with
  | Except.error e => Except.error e
  | Except.ok c => checkPastDate c today forceDate

/-- `executeBooking` (index.js lines 173-282), abstracted to the claims'
granularity: resolve the booking date (exiting with no side effects on
any error) and only then run `automator.book`, modelled by the arbitrary
effectful continuation `bookRun` (its first action is the browser
launch of `initialize`). -/
def executeBooking (dateOpt : Option Int) (advOpt : AdvanceOpt)
    (configDays : Option Nat) (forceDate : Bool) (today : Int)
    (bookRun : Int → Except String Unit × List Effect) :
    Except String Int × List Effect :=
  match resolveBookingDate dateOpt advOpt configDays forceDate today with
  | Except.error e => (Except.error e, [])
  | Except.ok c =>
    match bookRun c with
    | (Except.ok _, effs) => (Except.ok c, effs)
    | (Except.error e, effs) => (Except.error e, effs)

/-! ## Theorems for claim C6 -/

/-- C6: with neither `--date` nor the advance-days flag and no
`bookInAdvanceDays` in config, the resolved booking date is today + 15;
with `bookInAdvanceDays = 10` in config and `--book-in-advance-days`
passed with no value, it is today + 10. -/
theorem C6_default_advance_days (today : Int) (forceDate : Bool) :
    resolveBookingDate none AdvanceOpt.absent none forceDate today =
      Except.ok (today + 15) ∧
    resolveBookingDate none AdvanceOpt.flag (some 10) forceDate today =
      Except.ok (today + 10) := by
  constructor <;>
    · unfold resolveBookingDate calcBookingDate checkPastDate hardcodedDefaultAdvanceDays
      simp

/-! ## Theorems for claim C7 -/

/-- C7: a booking request whose calculated date is strictly before today
and which lacks `--force-date` is rejected with the past-date error, and
no effect of `automator.book` (browser launch, navigation, failure-log
write) occurs, for every possible booking continuation. -/
theorem C7_past_date_rejected_before_side_effects
    (dateOpt : Option Int) (advOpt : AdvanceOpt) (configDays : Option Nat)
    (today c : Int) (bookRun : Int → Except String Unit × List Effect)
    (hcalc : calcBookingDate dateOpt advOpt configDays today = Except.ok c)
    (hpast : c < today) :
    executeBooking dateOpt advOpt configDays false today bookRun =
      (Except.error pastDateError, []) := by
  have hres : resolveBookingDate dateOpt advOpt configDays false today =
      Except.error pastDateError := by
    unfold resolveBookingDate
    rw [hcalc]
    show checkPastDate c today false = Except.error pastDateError
    unfold checkPastDate
    rw [if_pos ⟨rfl, hpast⟩]
  unfold executeBooking
  rw [hres]

/-- Witness for `C7_past_date_rejected_before_side_effects`: an explicit
date one day in the past, with a booking continuation that would launch
the browser. -/
theorem C7_past_date_rejected_before_side_effects_witness :
    executeBooking (some 99) AdvanceOpt.absent none false 100
      (fun _ => (Except.ok (), [Effect.browserLaunch, Effect.navigate])) =
      (Except.error pastDateError, []) :=
  C7_past_date_rejected_before_side_effects (some 99) AdvanceOpt.absent none 100 99
    (fun _ => (Except.ok (), [Effect.browserLaunch, Effect.navigate])) rfl (by decide)

/-! ## Profile credential lookup (src/config.js lines 8-32) -/

/-- JS `s.toUpperCase()` (ASCII range), embedded over the character
list so that it evaluates by kernel reduction. -/
def jsToUpper (s : String) : String :=
  ⟨s.data.map Char.toUpper⟩

/-- The profile key computed at src/config.js line 10:
`profileEmail.replace(/[@.]/g, '_').toUpperCase()` — only `@` and `.`
are replaced by underscores. -/
def profileKey (email : String) : String :=
  jsToUpper ⟨email.data.map fun c => if c = '@' ∨ c = '.' then '_' else c⟩

/-- `PROFILE_{K}_USERNAME` (src/config.js line 11). -/
def usernameKey (email : String) : String := "PROFILE_" ++ profileKey email ++ "_USERNAME"

/-- `PROFILE_{K}_PASSWORD` (src/config.js line 12). -/
def passwordKey (email : String) : String := "PROFILE_" ++ profileKey email ++ "_PASSWORD"

/-- `PROFILE_{K}_SIGNATURE` (src/config.js line 13). -/
def signatureKey (email : String) : String := "PROFILE_" ++ profileKey email ++ "_SIGNATURE"

/-- The credentials object returned by `loadProfileCredentials`. -/
structure Credentials where
  email : String
  password : String
  signature : Option String
deriving DecidableEq

/-- `loadProfileCredentials` (src/config.js lines 8-32): reads the three
profile environment variables, errors when username or password is
missing or empty (JS truthiness), and maps a missing or empty signature
to null. -/
def loadProfileCredentials (env : String → Option String) (profileEmail : String) :
    Except String Credentials :=
  let username := env (usernameKey profileEmail)
  let password := env (passwordKey profileEmail)
  let signature := env (signatureKey profileEmail)
  match username with
  | none => Except.error ("Username not found for profile " ++ profileEmail)
  | some u =>
    if u = "" then Except.error ("Username not found for profile " ++ profileEmail)
    else
      match password with
      | none => Except.error ("Password not found for profile " ++ profileEmail)
      | some pw =>
        if pw = "" then Except.error ("Password not found for profile " ++ profileEmail)
        else
          Except.ok ⟨u, pw,
            match signature with
            | none => none
            | some sg => if sg = "" then none else some sg⟩

/-! ## Theorems for claim C8 -/

/-- Follows the claim wording for C8 (not the code): every
non-alphanumeric character replaced by underscore, then upper-cased. -/
def specProfileKey (email : String) : String :=
  jsToUpper ⟨email.data.map fun c => if c.isAlphanum then c else '_'⟩

/-- C8 counterexample: for the email `a-b@c.com` the code keeps the
hyphen, while the claimed normalization (every non-alphanumeric
character replaced) would replace it; the two keys differ, so the
claimed lookup key is wrong for this email. -/
theorem C8_counterexample :
    profileKey "a-b@c.com" = "A-B_C_COM" ∧
    specProfileKey "a-b@c.com" = "A_B_C_COM" ∧
    profileKey "a-b@c.com" ≠ specProfileKey "a-b@c.com" := by
  refine ⟨by decide, by decide, by decide⟩

/-- C8 (amended): `loadProfileCredentials` consults exactly the
environment variables `PROFILE_{K}_USERNAME`, `PROFILE_{K}_PASSWORD` and
`PROFILE_{K}_SIGNATURE`, where `K` is the email with every `@` and `.`
(and only those characters) replaced by underscore and the result
upper-cased: its outcome is unchanged under any environment that agrees
on those three variables. -/
theorem C8_profile_env_lookup (email : String) (env env2 : String → Option String)
    (hu : env (usernameKey email) = env2 (usernameKey email))
    (hp : env (passwordKey email) = env2 (passwordKey email))
    (hs : env (signatureKey email) = env2 (signatureKey email)) :
    loadProfileCredentials env email = loadProfileCredentials env2 email ∧
    usernameKey email = "PROFILE_" ++ profileKey email ++ "_USERNAME" ∧
    passwordKey email = "PROFILE_" ++ profileKey email ++ "_PASSWORD" ∧
    signatureKey email = "PROFILE_" ++ profileKey email ++ "_SIGNATURE" := by
  refine ⟨?_, rfl, rfl, rfl⟩
  unfold loadProfileCredentials
  rw [hu, hp, hs]

/-- Witness for `C8_profile_env_lookup`: two environments agreeing only
on the three profile variables of `john.doe@example.com`. -/
theorem C8_profile_env_lookup_witness :
    loadProfileCredentials
      (fun k =>
        if k = "PROFILE_JOHN_DOE_EXAMPLE_COM_USERNAME" then some "john.doe@example.com"
        else if k = "PROFILE_JOHN_DOE_EXAMPLE_COM_PASSWORD" then some "pw"
        else if k = "PROFILE_JOHN_DOE_EXAMPLE_COM_SIGNATURE" then some "JD"
        else some "junk") "john.doe@example.com" =
    loadProfileCredentials
      (fun k =>
        if k = "PROFILE_JOHN_DOE_EXAMPLE_COM_USERNAME" then some "john.doe@example.com"
        else if k = "PROFILE_JOHN_DOE_EXAMPLE_COM_PASSWORD" then some "pw"
        else if k = "PROFILE_JOHN_DOE_EXAMPLE_COM_SIGNATURE" then some "JD"
        else none) "john.doe@example.com" :=
  (C8_profile_env_lookup "john.doe@example.com"
    (fun k =>
      if k = "PROFILE_JOHN_DOE_EXAMPLE_COM_USERNAME" then some "john.doe@example.com"
      else if k = "PROFILE_JOHN_DOE_EXAMPLE_COM_PASSWORD" then some "pw"
      else if k = "PROFILE_JOHN_DOE_EXAMPLE_COM_SIGNATURE" then some "JD"
      else some "junk")
    (fun k =>
      if k = "PROFILE_JOHN_DOE_EXAMPLE_COM_USERNAME" then some "john.doe@example.com"
      else if k = "PROFILE_JOHN_DOE_EXAMPLE_COM_PASSWORD" then some "pw"
      else if k = "PROFILE_JOHN_DOE_EXAMPLE_COM_SIGNATURE" then some "JD"
      else none)
    rfl rfl rfl).1

end Parkhurst
